import Mathlib

/-!
Verification development for the PicklePot Stripe repository.

The embedding covers the two source files:

- the Flask backend embedded in the repository README: the
  create-checkout-session endpoint and the /webhook Stripe event handler
  which marks entries paid with a Firestore merge write;
- the browser application app.js: admission of entries (joinPot),
  live pot totals (watchPotTotals with getPotSharePct), relocation of an
  entry between pots (moveEntry), and start/end instant computation in
  createPot and savePotEdits.

Firestore documents are modelled as records of optional fields, so that
absent fields and JavaScript/Python truthiness tests translate directly.
Dollar amounts are rationals; instants are integers (milliseconds).
The owner-credential authority is not present in the sources (only its
endpoints are declared in the README); it is modelled from the spec where
marked below.
-/

namespace PicklePot

/-- ASCII lowercasing, written over the character list so that it
evaluates inside the kernel; it agrees with the lowercasing the sources
apply to names and emails. -/
def lowerStr (s : String) : String := ⟨s.data.map Char.toLower⟩

/-- A Firestore entry document, pots/potId/entries/entryId.  Every field
may be absent, as in the datastore. -/
structure EntryDoc where
  name : Option String := none
  name_lc : Option String := none
  email : Option String := none
  email_lc : Option String := none
  member_type : Option String := none
  player_skill : Option String := none
  pay_type : Option String := none
  applied_buyin : Option ℚ := none
  paid : Option Bool := none
  status : Option String := none
  created_at : Option Int := none
  paid_amount : Option Int := none
  paid_at : Option Int := none
  moved_from : Option String := none
  moved_at : Option Int := none
deriving DecidableEq

/-- The parts of a Stripe event the webhook reads: event type, the
pot and entry ids from the session metadata, and the settled amount. -/
structure StripeEvent where
  etype : String
  pot_id : Option String := none
  entry_id : Option String := none
  amount_total : Option Int := none
deriving DecidableEq

/-- Python truthiness of an optional string: present and nonempty
(the webhook guard "if pot_id and entry_id"). -/
def truthyStr : Option String → Bool
  | none => false
  | some s => !(s == "")

/-- The two event types the webhook treats as a completed payment. -/
def isCompletedType (t : String) : Bool :=
  t == "checkout.session.completed" || t == "checkout.session.async_payment_succeeded"

/-- The Firestore write of the webhook:
set with paid, paid_amount, paid_at and merge True.  On an existing
document only those three fields change; on a missing document a fresh
document holding only those three fields is created. -/
def markEntryPaid (doc : Option EntryDoc) (amount : Option Int) (now : Int) : EntryDoc :=
  match doc with
  | some d => { d with paid := some true, paid_amount := amount, paid_at := some now }
  | none => { paid := some true, paid_amount := amount, paid_at := some now }

/-- HTTP status returned by the webhook together with the entry document
at the path named by the event metadata after the call. -/
structure WebhookResponse where
  status : Nat
  doc : Option EntryDoc
deriving DecidableEq

/-- The /webhook handler.  sigValid is the outcome of
stripe.Webhook.construct_event (an invalid signature aborts with 400);
writeOk is whether the Firestore write succeeds (a failed write is only
logged and the handler still returns 200). -/
def handleGatewayEvent (sigValid : Bool) (ev : StripeEvent) (writeOk : Bool)
    (now : Int) (doc : Option EntryDoc) : WebhookResponse :=
  if !sigValid then ⟨400, doc⟩
  else if isCompletedType ev.etype && truthyStr ev.pot_id && truthyStr ev.entry_id then
    if writeOk then ⟨200, some (markEntryPaid doc ev.amount_total now)⟩
    else ⟨200, doc⟩
  else ⟨200, doc⟩

/-- C3: the webhook returns a non-2xx status exactly when the signature
does not verify, and in that case the stored document is untouched; a
verified event is always acknowledged with 200, including when the
metadata lacks pot_id or entry_id (acknowledged but ignored) and when
the datastore write fails. -/
theorem c3_webhook_ack_iff_signature (sigValid : Bool) (ev : StripeEvent)
    (writeOk : Bool) (now : Int) (doc : Option EntryDoc) :
    ((handleGatewayEvent sigValid ev writeOk now doc).status = 200 ↔ sigValid = true)
    ∧ (handleGatewayEvent false ev writeOk now doc).status = 400
    ∧ (handleGatewayEvent false ev writeOk now doc).doc = doc
    ∧ (handleGatewayEvent true { ev with pot_id := none } writeOk now doc).status = 200
    ∧ (handleGatewayEvent true { ev with pot_id := none } writeOk now doc).doc = doc
    ∧ (handleGatewayEvent true { ev with entry_id := none } writeOk now doc).doc = doc
    ∧ (handleGatewayEvent true ev false now doc).status = 200 := by
  refine ⟨?_, ?_, ?_, ?_, ?_, ?_, ?_⟩ <;>
    · unfold handleGatewayEvent truthyStr
      cases sigValid <;> simp <;> repeat' first | rfl | split

/-- C1, counterexample: the webhook write is not conditional on the entry
being unpaid.  An entry already marked paid with settled amount 500 is
still rewritten by an authenticated completed event carrying amount 700:
the stored settled amount changes, so the update does not happen
"only if the entry is not already marked paid". -/
theorem c1_conditional_update_counterexample :
    ({ paid := some true, paid_amount := some 500 } : EntryDoc).paid = some true
    ∧ (handleGatewayEvent true
        { etype := "checkout.session.completed", pot_id := some "p1",
          entry_id := some "e1", amount_total := some 700 } true 9
        (some { paid := some true, paid_amount := some 500 })).doc
      = some { paid := some true, paid_amount := some 700, paid_at := some 9 }
    ∧ (700 : Int) ≠ 500 := by
  refine ⟨rfl, ?_, by decide⟩
  rfl

/-- C1, amended: the webhook applies an unconditional merge write of
paid, paid_amount and paid_at on every authenticated completed event
carrying both ids, whether or not the entry is already paid; applying
the same event a second time is nevertheless a safe no-op, since after
the second application paid is still exactly true and the settled amount
is unchanged (only the server timestamp paid_at is rewritten). -/
theorem c1_webhook_reapplication_idempotent (ev : StripeEvent)
    (doc : Option EntryDoc) (t1 t2 : Int)
    (hc : isCompletedType ev.etype = true)
    (hp : truthyStr ev.pot_id = true) (he : truthyStr ev.entry_id = true) :
    (handleGatewayEvent true ev true t1 doc).doc
      = some (markEntryPaid doc ev.amount_total t1)
    ∧ (handleGatewayEvent true ev true t2
        ((handleGatewayEvent true ev true t1 doc).doc)).doc
      = some (markEntryPaid doc ev.amount_total t2)
    ∧ (markEntryPaid doc ev.amount_total t1).paid = some true
    ∧ (markEntryPaid doc ev.amount_total t2).paid
      = (markEntryPaid doc ev.amount_total t1).paid
    ∧ (markEntryPaid doc ev.amount_total t2).paid_amount
      = (markEntryPaid doc ev.amount_total t1).paid_amount := by
  have h1 : (handleGatewayEvent true ev true t1 doc).doc
      = some (markEntryPaid doc ev.amount_total t1) := by
    unfold handleGatewayEvent
    simp [hc, hp, he]
  refine ⟨h1, ?_, ?_, ?_, ?_⟩
  · rw [h1]
    unfold handleGatewayEvent
    simp [hc, hp, he]
    cases doc <;> rfl
  · cases doc <;> rfl
  · cases doc <;> rfl
  · cases doc <;> rfl

/-- C1 witness: the amended idempotence evaluated on a concrete completed
event and a concrete unpaid entry. -/
theorem c1_webhook_reapplication_idempotent_witness :
    (handleGatewayEvent true
        { etype := "checkout.session.completed", pot_id := some "p1",
          entry_id := some "e1", amount_total := some 1000 } true 3
        (some { name := some "Jane", applied_buyin := some 10, paid := some false })).doc
      = some (markEntryPaid
          (some { name := some "Jane", applied_buyin := some 10, paid := some false })
          (some 1000) 3)
    ∧ (handleGatewayEvent true
        { etype := "checkout.session.completed", pot_id := some "p1",
          entry_id := some "e1", amount_total := some 1000 } true 4
        ((handleGatewayEvent true
          { etype := "checkout.session.completed", pot_id := some "p1",
            entry_id := some "e1", amount_total := some 1000 } true 3
          (some { name := some "Jane", applied_buyin := some 10, paid := some false })).doc)).doc
      = some (markEntryPaid
          (some { name := some "Jane", applied_buyin := some 10, paid := some false })
          (some 1000) 4)
    ∧ (markEntryPaid
          (some { name := some "Jane", applied_buyin := some 10, paid := some false })
          (some 1000) 3).paid = some true
    ∧ (markEntryPaid
          (some { name := some "Jane", applied_buyin := some 10, paid := some false })
          (some 1000) 4).paid
      = (markEntryPaid
          (some { name := some "Jane", applied_buyin := some 10, paid := some false })
          (some 1000) 3).paid
    ∧ (markEntryPaid
          (some { name := some "Jane", applied_buyin := some 10, paid := some false })
          (some 1000) 4).paid_amount
      = (markEntryPaid
          (some { name := some "Jane", applied_buyin := some 10, paid := some false })
          (some 1000) 3).paid_amount :=
  c1_webhook_reapplication_idempotent
    { etype := "checkout.session.completed", pot_id := some "p1",
      entry_id := some "e1", amount_total := some 1000 }
    (some { name := some "Jane", applied_buyin := some 10, paid := some false })
    3 4 (by decide) (by decide) (by decide)

/-- C10: on an authenticated completed event carrying both ids, the
webhook write is a merge touching only paid, paid_amount and paid_at:
every other field of an existing entry document is preserved, and when
no document exists at the path a fresh document holding exactly those
three fields (all other fields absent) is created instead of failing. -/
theorem c10_webhook_frame (ev : StripeEvent) (now : Int)
    (hc : isCompletedType ev.etype = true)
    (hp : truthyStr ev.pot_id = true) (he : truthyStr ev.entry_id = true) :
    (∀ d : EntryDoc,
      (handleGatewayEvent true ev true now (some d)).doc
        = some { d with paid := some true, paid_amount := ev.amount_total,
                        paid_at := some now })
    ∧ (handleGatewayEvent true ev true now none).doc
        = some { paid := some true, paid_amount := ev.amount_total,
                 paid_at := some now } := by
  constructor
  · intro d
    unfold handleGatewayEvent
    simp [hc, hp, he]
    rfl
  · unfold handleGatewayEvent
    simp [hc, hp, he]
    rfl

/-- C10 witness: the frame property evaluated on a concrete event, a
concrete existing entry and the missing-document case. -/
theorem c10_webhook_frame_witness :
    (handleGatewayEvent true
        { etype := "checkout.session.completed", pot_id := some "p2",
          entry_id := some "e2", amount_total := some 2500 } true 7
        (some { name := some "Ann", email := some "ann@x.com",
                name_lc := some "ann", email_lc := some "ann@x.com",
                applied_buyin := some 25, status := some "active",
                paid := some false, created_at := some 1 })).doc
      = some { name := some "Ann", email := some "ann@x.com",
               name_lc := some "ann", email_lc := some "ann@x.com",
               applied_buyin := some 25, status := some "active",
               paid := some true, created_at := some 1,
               paid_amount := some 2500, paid_at := some 7 }
    ∧ (handleGatewayEvent true
        { etype := "checkout.session.completed", pot_id := some "p2",
          entry_id := some "e2", amount_total := some 2500 } true 7 none).doc
      = some { paid := some true, paid_amount := some 2500, paid_at := some 7 } := by
  have h := c10_webhook_frame
    { etype := "checkout.session.completed", pot_id := some "p2",
      entry_id := some "e2", amount_total := some 2500 } 7
    (by decide) (by decide) (by decide)
  exact ⟨h.1 _, h.2⟩

/-- The payment_methods map stored on a pot document (each flag may be
absent). -/
structure PaymentMethodsDoc where
  stripe : Option Bool := none
  zelle : Option Bool := none
  cashapp : Option Bool := none
  onsite : Option Bool := none
deriving DecidableEq

/-- A pot document, restricted to the fields the embedded operations
read. -/
structure Pot where
  skill : String := "Any"
  status : String := "open"
  buyin_member : Option ℚ := none
  buyin_guest : Option ℚ := none
  end_at : Option Int := none
  pot_share_pct : Option ℚ := none
  payment_methods : Option PaymentMethodsDoc := none
  pay_zelle : String := ""
  pay_cashapp : String := ""
  pay_onsite : Bool := false
deriving DecidableEq

/-- The capability set computed by getPaymentMethods: the new
payment_methods flags merged with the legacy pay_zelle, pay_cashapp and
pay_onsite fields (a nonempty legacy string counts as enabled). -/
structure PayCaps where
  stripe : Bool
  zelle : Bool
  cashapp : Bool
  onsite : Bool
deriving DecidableEq

def getPaymentMethods (p : Pot) : PayCaps :=
  let pm := p.payment_methods.getD {}
  { stripe := pm.stripe == some true
    zelle := pm.zelle == some true || !(p.pay_zelle == "")
    cashapp := pm.cashapp == some true || !(p.pay_cashapp == "")
    onsite := pm.onsite == some true || p.pay_onsite }

/-- SKILL_ORDER lookup with the JavaScript default 0 for unknown
labels. -/
def skillRank (s : String) : Nat :=
  if s == "Any" then 0
  else if s == "2.5 - 3.0" then 1
  else if s == "3.25+" then 2
  else 0

/-- The join-form fields as read (already trimmed) from the page. -/
structure JoinForm where
  fname : String
  lname : String := ""
  email : String := ""
  playerSkill : String := "Any"
  member_type : String := "Member"
  pay_type : String
deriving DecidableEq

/-- The display name built in joinPot:
the nonempty parts of first and last name joined by one space. -/
def joinName (fname lname : String) : String :=
  if fname == "" then (if lname == "" then "" else lname)
  else if lname == "" then fname else fname ++ " " ++ lname

/-- The registration-closed test of joinPot: a truthy end instant that
has passed, or status closed. -/
def joinClosed (p : Pot) (now : Int) : Bool :=
  (match p.end_at with
   | some e => !(e == 0) && decide (e ≤ now)
   | none => false) || p.status == "closed"

/-- The applied buy-in of a new entry: member or guest price with the
JavaScript default 0 for an absent field. -/
def appliedBuyin (p : Pot) (f : JoinForm) : ℚ :=
  if f.member_type == "Member" then p.buyin_member.getD 0 else p.buyin_guest.getD 0

/-- The duplicate test of joinPot and moveEntry: a nonempty lowercased
email matching some email_lc field, or a nonempty lowercased name
matching some name_lc field; an empty key skips its query. -/
def hasDupEntry (entries : List EntryDoc) (emailLC nameLC : String) : Bool :=
  (!(emailLC == "") && entries.any (fun e => e.email_lc == some emailLC))
  || (!(nameLC == "") && entries.any (fun e => e.name_lc == some nameLC))

/-- The entry document written by joinPot. -/
def mkJoinEntry (p : Pot) (now : Int) (f : JoinForm) : EntryDoc :=
  { name := some (joinName f.fname f.lname)
    name_lc := some (lowerStr (joinName f.fname f.lname))
    email := some f.email
    email_lc := some (lowerStr f.email)
    member_type := some f.member_type
    player_skill := some f.playerSkill
    pay_type := some f.pay_type
    applied_buyin := some (appliedBuyin p f)
    paid := some false
    status := some "active"
    created_at := some now }

/-- JavaScript Math.round: floor of the argument plus one half. -/
def jsRound (q : ℚ) : Int := ⌊q + 1 / 2⌋

/-- Outcome of joinPot.  The constructors that carry an entry are the
paths reached after the entry document has been added; checkoutRequested
is the point where the frontend contacts the payment server. -/
inductive JoinResult where
  | noPot
  | closed
  | missingFirstName
  | missingPayMethod
  | skillTooHigh
  | duplicate
  | stripeDisabled (entry : EntryDoc)
  | amountTooSmall (entry : EntryDoc)
  | checkoutRequested (entry : EntryDoc) (amount_cents : Int)
  | joined (entry : EntryDoc)
deriving DecidableEq

/-- joinPot from app.js: closed and field validation, the eligibility
gate, the duplicate queries, the entry write, and for Stripe the
capability gate and the 50-cent floor checked before any request to the
payment server.  entries is the current entry set of the pot. -/
def joinPot (cur : Option Pot) (now : Int) (f : JoinForm)
    (entries : List EntryDoc) : JoinResult :=
  match cur with
  | none => .noPot
  | some p =>
    if joinClosed p now then .closed
    else if f.fname == "" then .missingFirstName
    else if f.pay_type == "" then .missingPayMethod
    else if !(p.skill == "Any") && decide (skillRank f.playerSkill > skillRank p.skill)
      then .skillTooHigh
    else
      let emailLC := lowerStr f.email
      let nameLC := lowerStr (joinName f.fname f.lname)
      if hasDupEntry entries emailLC nameLC then .duplicate
      else
        let entry := mkJoinEntry p now f
        if f.pay_type == "Stripe" then
          if !(getPaymentMethods p).stripe then .stripeDisabled entry
          else
            let amount_cents := jsRound (appliedBuyin p f * 100)
            if amount_cents < 50 then .amountTooSmall entry
            else .checkoutRequested entry amount_cents
        else .joined entry

/-- The entry document written by a joinPot run, when one was written
(every outcome from the duplicate gate back reports none). -/
def writtenEntry : JoinResult → Option EntryDoc
  | .stripeDisabled e => some e
  | .amountTooSmall e => some e
  | .checkoutRequested e _ => some e
  | .joined e => some e
  | _ => none

/-- The active test used by the totals fold: an absent or empty status,
or the literal active. -/
def isActiveEntry (e : EntryDoc) : Bool :=
  match e.status with
  | none => true
  | some s => s == "" || s == "active"

/-- The Boolean duplicate test unfolded to its logical reading. -/
lemma hasDupEntry_iff (entries : List EntryDoc) (emailLC nameLC : String) :
    hasDupEntry entries emailLC nameLC = true ↔
      ((¬ emailLC = "" ∧ ∃ e ∈ entries, e.email_lc = some emailLC)
       ∨ (¬ nameLC = "" ∧ ∃ e ∈ entries, e.name_lc = some nameLC)) := by
  simp [hasDupEntry, List.any_eq_true]

/-- joinPot after the closed, first-name and payment-method gates have
passed: what remains is the eligibility gate, the duplicate gate, and
the write followed by the Stripe path. -/
lemma joinPot_gates (p : Pot) (now : Int) (f : JoinForm) (entries : List EntryDoc)
    (h1 : joinClosed p now = false) (h2 : ¬ f.fname = "") (h3 : ¬ f.pay_type = "") :
    joinPot (some p) now f entries =
      if !(p.skill == "Any") && decide (skillRank f.playerSkill > skillRank p.skill)
      then .skillTooHigh
      else if hasDupEntry entries (lowerStr f.email) (lowerStr (joinName f.fname f.lname))
      then .duplicate
      else if f.pay_type == "Stripe" then
        if !(getPaymentMethods p).stripe then .stripeDisabled (mkJoinEntry p now f)
        else if jsRound (appliedBuyin p f * 100) < 50 then .amountTooSmall (mkJoinEntry p now f)
        else .checkoutRequested (mkJoinEntry p now f) (jsRound (appliedBuyin p f * 100))
      else .joined (mkJoinEntry p now f) := by
  have h2b : (f.fname == "") = false := beq_eq_false_iff_ne.mpr h2
  have h3b : (f.pay_type == "") = false := beq_eq_false_iff_ne.mpr h3
  simp [joinPot, h1, h2b, h3b]

/-- C8, counterexample: the eligibility rule is not the ordinal
comparison the claim states.  A pot configured at the open tier Any
(rank 0) admits a participant declaring 3.25+ (rank 2), although
2 is not at most 0. -/
theorem c8_any_pot_counterexample :
    skillRank "3.25+" > skillRank ({ skill := "Any" } : Pot).skill
    ∧ joinPot (some { skill := "Any" }) 0
        { fname := "Ann", playerSkill := "3.25+", pay_type := "Onsite" } []
      = JoinResult.joined (mkJoinEntry { skill := "Any" } 0
          { fname := "Ann", playerSkill := "3.25+", pay_type := "Onsite" }) := by
  exact ⟨by decide, by decide⟩

/-- C8, amended: for admission attempts that pass the closed, name and
payment-method gates, rejection for skill happens exactly when the pot
tier is not Any and the declared rank exceeds the pot rank, on the
ordinal scale Any 0, 2.5 - 3.0 is 1, 3.25+ is 2.  In particular a pot at
tier 1 rejects tier 2 and accepts tiers 0 and 1, but a pot at Any
accepts every tier. -/
theorem c8_eligibility_amended (p : Pot) (now : Int) (f : JoinForm)
    (entries : List EntryDoc)
    (h1 : joinClosed p now = false) (h2 : ¬ f.fname = "") (h3 : ¬ f.pay_type = "") :
    (joinPot (some p) now f entries = .skillTooHigh
      ↔ (¬ p.skill = "Any" ∧ skillRank f.playerSkill > skillRank p.skill))
    ∧ skillRank "Any" = 0 ∧ skillRank "2.5 - 3.0" = 1 ∧ skillRank "3.25+" = 2 := by
  refine ⟨?_, by decide, by decide, by decide⟩
  rw [joinPot_gates p now f entries h1 h2 h3]
  have hCP : (!(p.skill == "Any")
        && decide (skillRank f.playerSkill > skillRank p.skill)) = true
      ↔ (¬ p.skill = "Any" ∧ skillRank f.playerSkill > skillRank p.skill) := by
    simp
  by_cases hC : (!(p.skill == "Any")
      && decide (skillRank f.playerSkill > skillRank p.skill)) = true
  · rw [if_pos hC]
    exact ⟨fun _ => hCP.mp hC, fun _ => rfl⟩
  · rw [if_neg hC]
    refine ⟨fun h => absurd h ?_, fun hP => absurd (hCP.mpr hP) hC⟩
    repeat' first
      | split
      | simp

/-- C8 witness: a pot at tier 1 together with three declarations: tier 2
is rejected, tiers 0 and 1 are admitted. -/
theorem c8_eligibility_amended_witness :
    (joinPot (some { skill := "2.5 - 3.0" }) 0
        { fname := "Ada", playerSkill := "3.25+", pay_type := "Onsite" } []
      = JoinResult.skillTooHigh
      ↔ (¬ ({ skill := "2.5 - 3.0" } : Pot).skill = "Any"
         ∧ skillRank "3.25+" > skillRank ({ skill := "2.5 - 3.0" } : Pot).skill))
    ∧ joinPot (some { skill := "2.5 - 3.0" }) 0
        { fname := "Ada", playerSkill := "3.25+", pay_type := "Onsite" } []
      = JoinResult.skillTooHigh
    ∧ ¬ joinPot (some { skill := "2.5 - 3.0" }) 0
        { fname := "Bea", playerSkill := "Any", pay_type := "Onsite" } []
      = JoinResult.skillTooHigh
    ∧ ¬ joinPot (some { skill := "2.5 - 3.0" }) 0
        { fname := "Cy", playerSkill := "2.5 - 3.0", pay_type := "Onsite" } []
      = JoinResult.skillTooHigh :=
  ⟨(c8_eligibility_amended { skill := "2.5 - 3.0" } 0
      { fname := "Ada", playerSkill := "3.25+", pay_type := "Onsite" } []
      (by decide) (by decide) (by decide)).1,
    by decide, by decide, by decide⟩

/-- C2, counterexample: the duplicate queries do not restrict to active
entries.  The only existing entry is on hold (not active), shares the
normalized email, and the admission is still rejected as a duplicate,
so the claimed otherwise-branch (a new entry is written when no active
entry matches) does not hold. -/
theorem c2_duplicate_active_counterexample :
    isActiveEntry
        { email_lc := some "a@x.com", name_lc := some "zed zed",
          status := some "hold" } = false
    ∧ lowerStr "A@X.com" = "a@x.com"
    ∧ joinPot (some { skill := "Any" }) 5
        { fname := "Bob", email := "A@X.com", pay_type := "Onsite" }
        [{ email_lc := some "a@x.com", name_lc := some "zed zed",
           status := some "hold" }]
      = JoinResult.duplicate := by
  decide

/-- C2, amended: for admission attempts passing the closed, name,
payment-method and eligibility gates, the admission is rejected as a
duplicate exactly when some entry of the pot, regardless of its
lifecycle status, carries the same nonempty normalized email or the
same nonempty normalized name (lowercasing makes the match
case-insensitive and independent of the display name); otherwise a new
entry is written with paid false and status active. -/
theorem c2_duplicate_rejection_amended (p : Pot) (now : Int) (f : JoinForm)
    (entries : List EntryDoc)
    (h1 : joinClosed p now = false) (h2 : ¬ f.fname = "") (h3 : ¬ f.pay_type = "")
    (h4 : ¬ (¬ p.skill = "Any" ∧ skillRank f.playerSkill > skillRank p.skill)) :
    (joinPot (some p) now f entries = .duplicate ↔
      ((¬ lowerStr f.email = ""
          ∧ ∃ e ∈ entries, e.email_lc = some (lowerStr f.email))
       ∨ (¬ lowerStr (joinName f.fname f.lname) = ""
          ∧ ∃ e ∈ entries, e.name_lc = some (lowerStr (joinName f.fname f.lname)))))
    ∧ (¬ joinPot (some p) now f entries = .duplicate →
        writtenEntry (joinPot (some p) now f entries) = some (mkJoinEntry p now f))
    ∧ (mkJoinEntry p now f).paid = some false
    ∧ (mkJoinEntry p now f).status = some "active" := by
  have hC : (!(p.skill == "Any")
      && decide (skillRank f.playerSkill > skillRank p.skill)) = false := by
    by_cases hsk : p.skill = "Any"
    · simp [hsk]
    · have hle : ¬ skillRank f.playerSkill > skillRank p.skill :=
        fun hgt => h4 ⟨hsk, hgt⟩
      simp [hle]
  rw [joinPot_gates p now f entries h1 h2 h3, if_neg (by simp [hC])]
  by_cases hdup : hasDupEntry entries (lowerStr f.email)
      (lowerStr (joinName f.fname f.lname)) = true
  · rw [if_pos hdup]
    exact ⟨⟨fun _ => (hasDupEntry_iff _ _ _).mp hdup, fun _ => rfl⟩,
      fun h => absurd rfl h, rfl, rfl⟩
  · rw [if_neg hdup]
    refine ⟨⟨fun h => ?_, fun hP => absurd ((hasDupEntry_iff _ _ _).mpr hP) hdup⟩,
      fun _ => ?_, rfl, rfl⟩
    · exfalso
      revert h
      repeat' first
        | split
        | simp
    · repeat' first
        | split
        | rfl

/-- C2 witness: the amended duplicate rule on a concrete pot holding an
active entry with normalized email a at x dot com: a second admission
with the same email in different case and a different display name is
rejected as a duplicate. -/
theorem c2_duplicate_rejection_amended_witness :
    (joinPot (some { skill := "Any" }) 5
        { fname := "Carla", lname := "Smith", email := "A@X.com", pay_type := "Onsite" }
        [{ email_lc := some "a@x.com", name_lc := some "dana jones",
           status := some "active" }]
      = JoinResult.duplicate ↔
      ((¬ lowerStr "A@X.com" = ""
          ∧ ∃ e ∈ [({ email_lc := some "a@x.com", name_lc := some "dana jones",
                      status := some "active" } : EntryDoc)],
              e.email_lc = some (lowerStr "A@X.com"))
       ∨ (¬ lowerStr (joinName "Carla" "Smith") = ""
          ∧ ∃ e ∈ [({ email_lc := some "a@x.com", name_lc := some "dana jones",
                      status := some "active" } : EntryDoc)],
              e.name_lc = some (lowerStr (joinName "Carla" "Smith")))))
    ∧ joinPot (some { skill := "Any" }) 5
        { fname := "Carla", lname := "Smith", email := "A@X.com", pay_type := "Onsite" }
        [{ email_lc := some "a@x.com", name_lc := some "dana jones",
           status := some "active" }]
      = JoinResult.duplicate :=
  ⟨(c2_duplicate_rejection_amended { skill := "Any" } 5
      { fname := "Carla", lname := "Smith", email := "A@X.com", pay_type := "Onsite" }
      [{ email_lc := some "a@x.com", name_lc := some "dana jones",
         status := some "active" }]
      (by decide) (by decide) (by decide) (by decide)).1,
    by decide⟩

/-- The request body of the create-checkout-session endpoint; an absent
key is none. -/
structure CheckoutRequest where
  pot_id : Option String := none
  entry_id : Option String := none
  amount_cents : Option Int := none
  success_url : Option String := none
  cancel_url : Option String := none
deriving DecidableEq

/-- Outcome of create-checkout-session; gatewayError covers an exception
from the Stripe session call, the only point where the gateway is
contacted. -/
inductive CheckoutResult where
  | missingFields (missing : List String)
  | amountTooSmall
  | sessionCreated (amount : Int)
  | gatewayError
deriving DecidableEq

/-- The required-key scan of the endpoint, in request order. -/
def requiredMissing (r : CheckoutRequest) : List String :=
  (if r.pot_id.isNone then ["pot_id"] else [])
  ++ (if r.entry_id.isNone then ["entry_id"] else [])
  ++ (if r.amount_cents.isNone then ["amount_cents"] else [])
  ++ (if r.success_url.isNone then ["success_url"] else [])
  ++ (if r.cancel_url.isNone then ["cancel_url"] else [])

/-- The create-checkout-session endpoint: missing-field check, then the
50 cent minimum checked before the gateway session call, then the
gateway call itself (gatewayOk tells whether it succeeds). -/
def create_checkout_session (r : CheckoutRequest) (gatewayOk : Bool) : CheckoutResult :=
  if !(requiredMissing r == []) then .missingFields (requiredMissing r)
  else
    let amount := r.amount_cents.getD 0
    if amount < 50 then .amountTooSmall
    else if gatewayOk then .sessionCreated amount else .gatewayError

/-- C5: a checkout-session request whose minor-unit amount is below 50
is rejected with the amount-too-small error, and the outcome does not
depend on the gateway at all (no gateway call is attempted; the endpoint
touches no entry).  An applied buy-in of 0.30 dollars rounds to 30
cents, and the frontend join path with that buy-in likewise stops with
the amount-too-small failure before contacting the payment server. -/
theorem c5_min_amount_rejected (r : CheckoutRequest) (a : Int) (g1 g2 : Bool)
    (hm : requiredMissing r = []) (ha : r.amount_cents = some a) (hlt : a < 50) :
    create_checkout_session r g1 = CheckoutResult.amountTooSmall
    ∧ create_checkout_session r g1 = create_checkout_session r g2
    ∧ jsRound ((3 / 10 : ℚ) * 100) = 30
    ∧ joinPot (some { skill := "Any", buyin_member := some (3 / 10),
                      payment_methods := some { stripe := some true } }) 0
        { fname := "Cal", pay_type := "Stripe" } []
      = JoinResult.amountTooSmall
          (mkJoinEntry { skill := "Any", buyin_member := some (3 / 10),
                         payment_methods := some { stripe := some true } } 0
            { fname := "Cal", pay_type := "Stripe" }) := by
  have h30 : jsRound ((3 / 10 : ℚ) * 100) = 30 := by
    unfold jsRound
    norm_num
  have hccs : create_checkout_session r g1 = CheckoutResult.amountTooSmall := by
    unfold create_checkout_session
    simp [hm, ha, hlt]
  have hccs2 : create_checkout_session r g2 = CheckoutResult.amountTooSmall := by
    unfold create_checkout_session
    simp [hm, ha, hlt]
  refine ⟨hccs, hccs.trans hccs2.symm, h30, ?_⟩
  rw [joinPot_gates _ 0 _ [] (by decide) (by decide) (by decide)]
  have hbuy : appliedBuyin
      { skill := "Any", buyin_member := some (3 / 10),
                        payment_methods := some { stripe := some true } }
      { fname := "Cal", pay_type := "Stripe" } = 3 / 10 := by
    rfl
  rw [if_neg (by decide), if_neg (by decide), if_pos (by decide),
    if_neg (by decide), if_pos (by rw [hbuy, h30]; decide)]

/-- C5 witness: a complete request carrying 30 cents is rejected as too
small whatever the gateway would have answered. -/
theorem c5_min_amount_rejected_witness :
    requiredMissing { pot_id := some "p", entry_id := some "e",
                      amount_cents := some 30, success_url := some "s",
                      cancel_url := some "c" } = []
    ∧ (30 : Int) < 50
    ∧ create_checkout_session
        { pot_id := some "p", entry_id := some "e", amount_cents := some 30,
          success_url := some "s", cancel_url := some "c" } true
      = CheckoutResult.amountTooSmall :=
  ⟨by decide, by decide,
    (c5_min_amount_rejected
      { pot_id := some "p", entry_id := some "e", amount_cents := some 30,
        success_url := some "s", cancel_url := some "c" }
      30 true false (by decide) rfl (by decide)).1⟩

/-- The amount read from an entry by the totals fold, JavaScript default
0 for an absent field. -/
def entryAmount (e : EntryDoc) : ℚ := e.applied_buyin.getD 0

/-- Accumulator of watchPotTotals. -/
structure Totals where
  totalAll : ℚ := 0
  totalPaid : ℚ := 0
  countAll : Nat := 0
  countPaid : Nat := 0
deriving DecidableEq

/-- One step of the watchPotTotals loop over the snapshot: skip inactive
entries, count a positive amount into the all bucket, and additionally
into the paid bucket when the paid field is truthy. -/
def totalsStep (t : Totals) (e : EntryDoc) : Totals :=
  if !isActiveEntry e then t
  else if 0 < entryAmount e then
    let t1 := { t with totalAll := t.totalAll + entryAmount e,
                       countAll := t.countAll + 1 }
    if e.paid == some true then
      { t1 with totalPaid := t1.totalPaid + entryAmount e,
                countPaid := t1.countPaid + 1 }
    else t1
  else t

/-- watchPotTotals: a fold of totalsStep over the current snapshot,
started from zero. -/
def watchPotTotals (entries : List EntryDoc) : Totals :=
  entries.foldl totalsStep {}

/-- Membership in the all bucket: active with positive amount. -/
def countsInAll (e : EntryDoc) : Bool :=
  isActiveEntry e && decide (0 < entryAmount e)

/-- Membership in the paid bucket: active, positive and truthy paid. -/
def countsInPaid (e : EntryDoc) : Bool :=
  countsInAll e && (e.paid == some true)

/-- getPotSharePct: the configured share percentage of the pot, 50 when
the field is not a number. -/
def getPotSharePct (p : Pot) : ℚ := p.pot_share_pct.getD 50

/-- The two headline figures pushed by watchPotTotals:
paid share and total share, both sums scaled by pct over 100. -/
def bigTotals (p : Pot) (entries : List EntryDoc) : ℚ × ℚ :=
  let t := watchPotTotals entries
  let pct := getPotSharePct p / 100
  (t.totalPaid * pct, t.totalAll * pct)

lemma totalsStep_totalAll (t : Totals) (e : EntryDoc) :
    (totalsStep t e).totalAll
      = t.totalAll + (if countsInAll e then entryAmount e else 0) := by
  cases hA : isActiveEntry e <;>
    by_cases h0 : (0 : ℚ) < entryAmount e <;>
      cases hP : e.paid == some true <;>
        simp [totalsStep, countsInAll, hA, h0, hP]

lemma totalsStep_totalPaid (t : Totals) (e : EntryDoc) :
    (totalsStep t e).totalPaid
      = t.totalPaid + (if countsInPaid e then entryAmount e else 0) := by
  cases hA : isActiveEntry e <;>
    by_cases h0 : (0 : ℚ) < entryAmount e <;>
      cases hP : e.paid == some true <;>
        simp [totalsStep, countsInAll, countsInPaid, hA, h0, hP]

lemma foldl_totalsStep (es : List EntryDoc) : ∀ t : Totals,
    (List.foldl totalsStep t es).totalAll
      = t.totalAll + ((es.filter countsInAll).map entryAmount).sum
    ∧ (List.foldl totalsStep t es).totalPaid
      = t.totalPaid + ((es.filter countsInPaid).map entryAmount).sum := by
  induction es with
  | nil => intro t; simp
  | cons e es ih =>
    intro t
    rw [List.foldl_cons]
    constructor
    · rw [(ih _).1, totalsStep_totalAll]
      by_cases h : countsInAll e = true <;>
        simp [h, List.filter_cons, add_assoc]
    · rw [(ih _).2, totalsStep_totalPaid]
      by_cases h : countsInPaid e = true <;>
        simp [h, List.filter_cons, add_assoc]

/-- C4: the totals are a pure fold over the snapshot restricted to
active entries with positive applied buy-in (the paid sum further
restricted to truthy paid); the reported shares are the paid and total
sums each scaled by pct over 100, with pct defaulting to 50 when the pot
has no configured share percentage; and on a snapshot with totalAll 100,
totalPaid 60 the shares are 30 and 50 at pct 50, and 0 and 0 at
pct 0. -/
theorem c4_totals_pure_fold_and_shares :
    (∀ entries, (watchPotTotals entries).totalAll
      = ((entries.filter countsInAll).map entryAmount).sum)
    ∧ (∀ entries, (watchPotTotals entries).totalPaid
      = ((entries.filter countsInPaid).map entryAmount).sum)
    ∧ (∀ (p : Pot) entries, bigTotals p entries
      = ((watchPotTotals entries).totalPaid * (getPotSharePct p / 100),
         (watchPotTotals entries).totalAll * (getPotSharePct p / 100)))
    ∧ (∀ p : Pot, p.pot_share_pct = none → getPotSharePct p = 50)
    ∧ (watchPotTotals
        [{ applied_buyin := some 60, paid := some true, status := some "active" },
         { applied_buyin := some 40, paid := some false, status := some "active" }]).totalAll
      = 100
    ∧ (watchPotTotals
        [{ applied_buyin := some 60, paid := some true, status := some "active" },
         { applied_buyin := some 40, paid := some false, status := some "active" }]).totalPaid
      = 60
    ∧ bigTotals { pot_share_pct := some 50 }
        [{ applied_buyin := some 60, paid := some true, status := some "active" },
         { applied_buyin := some 40, paid := some false, status := some "active" }]
      = (30, 50)
    ∧ bigTotals { pot_share_pct := some 0 }
        [{ applied_buyin := some 60, paid := some true, status := some "active" },
         { applied_buyin := some 40, paid := some false, status := some "active" }]
      = (0, 0) := by
  have hAll : ∀ entries, (watchPotTotals entries).totalAll
      = ((entries.filter countsInAll).map entryAmount).sum := by
    intro entries
    have h := (foldl_totalsStep entries {}).1
    simpa [watchPotTotals] using h
  have hPaid : ∀ entries, (watchPotTotals entries).totalPaid
      = ((entries.filter countsInPaid).map entryAmount).sum := by
    intro entries
    have h := (foldl_totalsStep entries {}).2
    simpa [watchPotTotals] using h
  have hc1 : (watchPotTotals
      [{ applied_buyin := some 60, paid := some true, status := some "active" },
       { applied_buyin := some 40, paid := some false, status := some "active" }]).totalAll
      = 100 := by
    rw [hAll]
    norm_num [countsInAll, countsInPaid, isActiveEntry, entryAmount,
      List.filter_cons]
  have hc2 : (watchPotTotals
      [{ applied_buyin := some 60, paid := some true, status := some "active" },
       { applied_buyin := some 40, paid := some false, status := some "active" }]).totalPaid
      = 60 := by
    rw [hPaid]
    norm_num [countsInAll, countsInPaid, isActiveEntry, entryAmount,
      List.filter_cons]
  refine ⟨hAll, hPaid, fun p entries => rfl, fun p h => by simp [getPotSharePct, h],
    hc1, hc2, ?_, ?_⟩
  · have : bigTotals { pot_share_pct := some 50 }
        [{ applied_buyin := some 60, paid := some true, status := some "active" },
         { applied_buyin := some 40, paid := some false, status := some "active" }]
        = ((watchPotTotals
            [{ applied_buyin := some 60, paid := some true, status := some "active" },
             { applied_buyin := some 40, paid := some false, status := some "active" }]).totalPaid
              * ((50 : ℚ) / 100),
           (watchPotTotals
            [{ applied_buyin := some 60, paid := some true, status := some "active" },
             { applied_buyin := some 40, paid := some false, status := some "active" }]).totalAll
              * ((50 : ℚ) / 100)) := rfl
    rw [this, hc1, hc2]
    norm_num
  · have : bigTotals { pot_share_pct := some 0 }
        [{ applied_buyin := some 60, paid := some true, status := some "active" },
         { applied_buyin := some 40, paid := some false, status := some "active" }]
        = ((watchPotTotals
            [{ applied_buyin := some 60, paid := some true, status := some "active" },
             { applied_buyin := some 40, paid := some false, status := some "active" }]).totalPaid
              * ((0 : ℚ) / 100),
           (watchPotTotals
            [{ applied_buyin := some 60, paid := some true, status := some "active" },
             { applied_buyin := some 40, paid := some false, status := some "active" }]).totalAll
              * ((0 : ℚ) / 100)) := rfl
    rw [this, hc1, hc2]
    norm_num

/-- C4 witness: the default share percentage evaluated on a pot without
a configured percentage. -/
theorem c4_totals_pure_fold_and_shares_witness :
    ({ pot_share_pct := none } : Pot).pot_share_pct = none
    ∧ getPotSharePct { pot_share_pct := none } = 50 :=
  ⟨rfl, c4_totals_pure_fold_and_shares.2.2.2.1 { pot_share_pct := none } rfl⟩

/-- Outcome of moveEntry together with the entry sets of the source and
target pots after the call. -/
inductive MoveResult where
  | samePot
  | entryNotFound
  | duplicateInTarget
  | moved
deriving DecidableEq

structure MoveOutcome where
  result : MoveResult
  fromEntries : List (String × EntryDoc)
  toEntries : List EntryDoc
deriving DecidableEq

/-- The copied entry written into the target pot: the source entry with
a fresh server creation instant and the origin stamp (moved_from,
moved_at). -/
def mkMovedEntry (fromPotId : String) (now : Int) (e : EntryDoc) : EntryDoc :=
  { e with created_at := some now, moved_from := some fromPotId,
           moved_at := some now }

/-- moveEntry from app.js: refuse a move to the same pot, look the entry
up by id, re-run the duplicate queries against the target entry set
(lowercased display name and email, empty keys skipped), then add the
stamped copy to the target and delete the source document. -/
def moveEntry (fromPotId : String) (fromEntries : List (String × EntryDoc))
    (entryId toPotId : String) (toEntries : List EntryDoc)
    (now : Int) : MoveOutcome :=
  if toPotId == fromPotId then ⟨.samePot, fromEntries, toEntries⟩
  else
    match fromEntries.find? (fun pr => pr.1 == entryId) with
    | none => ⟨.entryNotFound, fromEntries, toEntries⟩
    | some pr =>
      let entry := pr.2
      let emailLC := lowerStr (entry.email.getD "")
      let nameLC := lowerStr (entry.name.getD "")
      if hasDupEntry toEntries emailLC nameLC then
        ⟨.duplicateInTarget, fromEntries, toEntries⟩
      else
        ⟨.moved, fromEntries.filter (fun pr2 => !(pr2.1 == entryId)),
          toEntries ++ [mkMovedEntry fromPotId now entry]⟩

/-- C7, counterexample: the duplicate re-check skips empty keys, so an
entry without email whose target pot already holds another entry with
the same (empty) normalized email is moved, not rejected, although the
target already has an entry with the same normalized email. -/
theorem c7_move_duplicate_counterexample :
    (({ name_lc := some "alice", email_lc := some "" } : EntryDoc)).email_lc
      = some (lowerStr ((({ name := some "Bob", email := some "",
                            name_lc := some "bob", email_lc := some "" } : EntryDoc)).email.getD ""))
    ∧ (moveEntry "A"
        [("id1", { name := some "Bob", email := some "",
                   name_lc := some "bob", email_lc := some "" })]
        "id1" "B"
        [{ name_lc := some "alice", email_lc := some "" }] 7).result
      = MoveResult.moved := by
  decide

/-- C7, amended: with distinct pots and the entry found, the move is
rejected outright (no write to either pot) exactly when the target pot
already has an entry with the same nonempty lowercased name or the same
nonempty lowercased email; otherwise the entry is appended to the target
set with identical paid state and applied buy-in, stamped with the
origin pot id, a move instant and a fresh creation instant, and deleted
from the source set. -/
theorem c7_relocation_integrity_amended (fromPotId : String)
    (fromEntries : List (String × EntryDoc)) (entryId toPotId : String)
    (toEntries : List EntryDoc) (now : Int) (e : EntryDoc)
    (hne : ¬ toPotId = fromPotId)
    (hfind : fromEntries.find? (fun pr => pr.1 == entryId) = some (entryId, e)) :
    (hasDupEntry toEntries (lowerStr (e.email.getD "")) (lowerStr (e.name.getD "")) = true →
      moveEntry fromPotId fromEntries entryId toPotId toEntries now
        = ⟨.duplicateInTarget, fromEntries, toEntries⟩)
    ∧ (hasDupEntry toEntries (lowerStr (e.email.getD "")) (lowerStr (e.name.getD "")) = false →
      moveEntry fromPotId fromEntries entryId toPotId toEntries now
        = ⟨.moved, fromEntries.filter (fun pr2 => !(pr2.1 == entryId)),
            toEntries ++ [mkMovedEntry fromPotId now e]⟩)
    ∧ (mkMovedEntry fromPotId now e).paid = e.paid
    ∧ (mkMovedEntry fromPotId now e).applied_buyin = e.applied_buyin
    ∧ (mkMovedEntry fromPotId now e).moved_from = some fromPotId
    ∧ (mkMovedEntry fromPotId now e).moved_at = some now
    ∧ (mkMovedEntry fromPotId now e).created_at = some now := by
  have hb : (toPotId == fromPotId) = false := beq_eq_false_iff_ne.mpr hne
  refine ⟨fun hdup => ?_, fun hdup => ?_, rfl, rfl, rfl, rfl, rfl⟩ <;>
    · unfold moveEntry
      rw [if_neg (by simp [hb]), hfind]
      simp [hdup]

/-- C7 witness: a concrete move of a paid entry into a pot with no
matching identity: added to the target with the same paid state and
amount, removed from the source. -/
theorem c7_relocation_integrity_amended_witness :
    hasDupEntry
        [{ name_lc := some "carol", email_lc := some "c@x.com" }]
        (lowerStr ((({ name := some "Bob", email := some "b@x.com",
                       paid := some true, applied_buyin := some 25 } : EntryDoc)).email.getD ""))
        (lowerStr ((({ name := some "Bob", email := some "b@x.com",
                       paid := some true, applied_buyin := some 25 } : EntryDoc)).name.getD ""))
      = false
    ∧ moveEntry "A"
        [("id1", { name := some "Bob", email := some "b@x.com",
                   paid := some true, applied_buyin := some 25 })]
        "id1" "B"
        [{ name_lc := some "carol", email_lc := some "c@x.com" }] 7
      = ⟨.moved, [],
          [{ name_lc := some "carol", email_lc := some "c@x.com" },
           mkMovedEntry "A" 7
             { name := some "Bob", email := some "b@x.com",
               paid := some true, applied_buyin := some 25 }]⟩ :=
  ⟨by decide,
    by
      have h := (c7_relocation_integrity_amended "A"
        [("id1", { name := some "Bob", email := some "b@x.com",
                   paid := some true, applied_buyin := some 25 })]
        "id1" "B"
        [{ name_lc := some "carol", email_lc := some "c@x.com" }] 7
        { name := some "Bob", email := some "b@x.com",
          paid := some true, applied_buyin := some 25 }
        (by decide) (by decide)).2.1 (by decide)
      simpa using h⟩

/-- Milliseconds per day; a local instant is date times this plus the
time of day in milliseconds, matching Date parsing of the date and time
strings on one calendar day. -/
def MS_PER_DAY : Int := 86400000

/-- The fixed fallback duration of createPot and savePotEdits:
two hours in milliseconds. -/
def TWO_HOURS_MS : Int := 7200000

def localInstant (date timeOfDay : Int) : Int := date * MS_PER_DAY + timeOfDay

/-- The stored start and end instants of a pot (absent when never
computed). -/
structure PotTimes where
  start_at : Option Int
  end_at : Option Int
deriving DecidableEq

/-- The start and end instants computed by createPot: both absent unless
date and time are given; with an end time earlier than the start the end
falls back to start plus two hours, and with no end time it defaults to
start plus two hours. -/
def createPotTimes (date time endTime : Option Int) : PotTimes :=
  match date, time with
  | some d, some t =>
    let startLocal := localInstant d t
    (match endTime with
     | some et =>
       let endLocal := localInstant d et
       ⟨some startLocal,
        some (if endLocal < startLocal then startLocal + TWO_HOURS_MS else endLocal)⟩
     | none => ⟨some startLocal, some (startLocal + TWO_HOURS_MS)⟩)
  | _, _ => ⟨none, none⟩

/-- The end recomputation of savePotEdits.  The stored start instant is
never rewritten; the end is recomputed only when a date together with a
time or an end time is entered: with an end time it is clamped against
the instant derived from the entered date and time (or the stored start
when no time is entered), and with no end time the end is cleared. -/
def savePotEditsTimes (cur : PotTimes) (date time endTime : Option Int) : PotTimes :=
  match date with
  | none => cur
  | some d =>
    if time = none ∧ endTime = none then cur
    else
      match endTime with
      | some et =>
        let startLocal : Option Int :=
          match time with
          | some t => some (localInstant d t)
          | none => cur.start_at
        let endLocal := localInstant d et
        ⟨cur.start_at,
         some (match startLocal with
               | some s => if endLocal < s then s + TWO_HOURS_MS else endLocal
               | none => endLocal)⟩
      | none => ⟨cur.start_at, none⟩

/-- C9, counterexample: editing does not preserve the claimed invariant.
Editing with a time but no end time clears the end instant instead of
defaulting it to start plus two hours; and editing the date and times of
a pot leaves the stored start instant untouched, so the recomputed end
instant (day 0, hour 1) precedes the stored start instant (day 10). -/
theorem c9_edit_end_counterexample :
    (savePotEditsTimes ⟨some 0, some 7200000⟩ (some 0) (some 3600000) none).end_at
      = none
    ∧ (savePotEditsTimes ⟨some 864000000, some 871200000⟩
        (some 0) (some 0) (some 3600000)).end_at = some 3600000
    ∧ (savePotEditsTimes ⟨some 864000000, some 871200000⟩
        (some 0) (some 0) (some 3600000)).start_at = some 864000000
    ∧ (3600000 : Int) < 864000000 := by
  refine ⟨rfl, rfl, rfl, by decide⟩

/-- C9, amended: creation establishes the invariant: the end instant
exists exactly when the start does, never precedes it, and defaults to
start plus two hours when no end time is entered.  Editing, however,
never rewrites the stored start; with a date and a time but no end time
it clears the end instant (no two-hour default), and with an end time it
guarantees the new end only against the instant derived from the entered
date and time, not against the stored start. -/
theorem c9_time_invariant_amended :
    (∀ date time endTime sv ev,
      (createPotTimes date time endTime).start_at = some sv →
      (createPotTimes date time endTime).end_at = some ev → sv ≤ ev)
    ∧ (∀ date time endTime,
      (createPotTimes date time endTime).start_at = none →
      (createPotTimes date time endTime).end_at = none)
    ∧ (∀ date time sv,
      (createPotTimes date time none).start_at = some sv →
      (createPotTimes date time none).end_at = some (sv + TWO_HOURS_MS))
    ∧ (∀ cur date time endTime,
      (savePotEditsTimes cur date time endTime).start_at = cur.start_at)
    ∧ (∀ cur d t, (savePotEditsTimes cur (some d) (some t) none).end_at = none)
    ∧ (∀ cur d t et ev,
      (savePotEditsTimes cur (some d) (some t) (some et)).end_at = some ev →
      localInstant d t ≤ ev) := by
  have hpos : (0 : Int) < TWO_HOURS_MS := by decide
  refine ⟨?_, ?_, ?_, ?_, ?_, ?_⟩
  · rintro (_ | d) (_ | t) (_ | et) sv ev hs he <;>
      simp [createPotTimes] at hs he <;> subst hs
    · omega
    · split at he <;> omega
  · rintro (_ | d) (_ | t) (_ | et) hs <;> simp [createPotTimes] at hs ⊢
  · rintro (_ | d) (_ | t) sv hs <;> simp [createPotTimes] at hs ⊢
    subst hs
    rfl
  · rintro cur (_ | d) time endTime
    · rfl
    · cases time <;> cases endTime <;> simp [savePotEditsTimes]
  · intro cur d t
    rfl
  · intro cur d t et ev he
    simp [savePotEditsTimes] at he
    split at he <;> omega

/-- C9 witness: the amended statement evaluated concretely: creation
with no end time yields start plus two hours, and an edited end with an
entered date and time does not precede the instant they derive. -/
theorem c9_time_invariant_amended_witness :
    (createPotTimes (some 3) (some 3600000) none).start_at
      = some (localInstant 3 3600000)
    ∧ (createPotTimes (some 3) (some 3600000) none).end_at
      = some (localInstant 3 3600000 + TWO_HOURS_MS)
    ∧ (savePotEditsTimes ⟨none, none⟩ (some 0) (some 3600000) (some 7200000)).end_at
      = some 7200000
    ∧ localInstant 0 3600000 ≤ 7200000 :=
  ⟨rfl,
    c9_time_invariant_amended.2.2.1 (some 3) (some 3600000) (localInstant 3 3600000) rfl,
    rfl,
    c9_time_invariant_amended.2.2.2.2.2 ⟨none, none⟩ 0 3600000 7200000 7200000 rfl⟩

/-- Modelled from the spec: the per-pot owner credential material, the
one-way hash of the access code and the rotating salt for link tokens
(the rotate and revoke endpoints are declared in the README but their
implementation is not part of the sources). -/
structure OwnerCredential where
  owner_code_hash : Nat
  owner_token_salt : Nat
deriving DecidableEq

/-- Modelled from the spec: an injective stand-in for the one-way code
hash. -/
def hashOwnerCode (code : Nat) : Nat := 2 * code + 1

/-- Modelled from the spec: the link token derived from the stored
salt. -/
def deriveLinkToken (salt : Nat) : Nat := 2 * salt

/-- Modelled from the spec: code verification recomputes the hash and
compares with the stored hash. -/
def verifyCode (st : OwnerCredential) (code : Nat) : Bool :=
  hashOwnerCode code == st.owner_code_hash

/-- Modelled from the spec: link verification recomputes the token from
the stored salt and compares. -/
def verifyLink (st : OwnerCredential) (token : Nat) : Bool :=
  token == deriveLinkToken st.owner_token_salt

/-- Modelled from the spec: the credential issued at pot creation from a
fresh code and salt (only the hash of the code is stored). -/
def issueInitial (code salt : Nat) : OwnerCredential :=
  { owner_code_hash := hashOwnerCode code, owner_token_salt := salt }

/-- Modelled from the spec: rotateCode stores the hash of a fresh code
and leaves the salt untouched. -/
def rotateCode (st : OwnerCredential) (newCode : Nat) : OwnerCredential :=
  { st with owner_code_hash := hashOwnerCode newCode }

/-- Modelled from the spec: rotateLink stores a fresh salt and leaves
the code hash untouched. -/
def rotateLink (st : OwnerCredential) (newSalt : Nat) : OwnerCredential :=
  { st with owner_token_salt := newSalt }

/-- Modelled from the spec: revokeAll replaces both the code hash and
the salt in one step. -/
def revokeAll (newCode newSalt : Nat) : OwnerCredential :=
  { owner_code_hash := hashOwnerCode newCode, owner_token_salt := newSalt }

/-- C6: for a credential issued from an old code and salt, rotating the
code (to a genuinely fresh one) makes the old code fail verification
while the previously issued link still passes; rotating the link does
the opposite; revoking all makes both fail. -/
theorem c6_credential_rotation_scope (oldCode oldSalt newCode newSalt : Nat)
    (hc : ¬ newCode = oldCode) (hs : ¬ newSalt = oldSalt) :
    verifyCode (issueInitial oldCode oldSalt) oldCode = true
    ∧ verifyLink (issueInitial oldCode oldSalt) (deriveLinkToken oldSalt) = true
    ∧ verifyCode (rotateCode (issueInitial oldCode oldSalt) newCode) oldCode = false
    ∧ verifyLink (rotateCode (issueInitial oldCode oldSalt) newCode)
        (deriveLinkToken oldSalt) = true
    ∧ verifyLink (rotateLink (issueInitial oldCode oldSalt) newSalt)
        (deriveLinkToken oldSalt) = false
    ∧ verifyCode (rotateLink (issueInitial oldCode oldSalt) newSalt) oldCode = true
    ∧ verifyCode (revokeAll newCode newSalt) oldCode = false
    ∧ verifyLink (revokeAll newCode newSalt) (deriveLinkToken oldSalt) = false := by
  refine ⟨?_, ?_, ?_, ?_, ?_, ?_, ?_, ?_⟩ <;>
    simp [verifyCode, verifyLink, issueInitial, rotateCode, rotateLink,
      revokeAll, hashOwnerCode, deriveLinkToken] <;>
    omega

/-- C6 witness: the rotation scope evaluated on concrete credential
material. -/
theorem c6_credential_rotation_scope_witness :
    verifyCode (issueInitial 11 23) 11 = true
    ∧ verifyCode (rotateCode (issueInitial 11 23) 12) 11 = false
    ∧ verifyLink (rotateCode (issueInitial 11 23) 12) (deriveLinkToken 23) = true
    ∧ verifyLink (rotateLink (issueInitial 11 23) 24) (deriveLinkToken 23) = false
    ∧ verifyCode (rotateLink (issueInitial 11 23) 24) 11 = true
    ∧ verifyCode (revokeAll 12 24) 11 = false
    ∧ verifyLink (revokeAll 12 24) (deriveLinkToken 23) = false := by
  have h := c6_credential_rotation_scope 11 23 12 24 (by decide) (by decide)
  exact ⟨h.1, h.2.2.1, h.2.2.2.1, h.2.2.2.2.1, h.2.2.2.2.2.1,
    h.2.2.2.2.2.2.1, h.2.2.2.2.2.2.2⟩

end PicklePot
